import Mathlib

/-!
A verification development for the travel-planner orchestration core
(`crew/crew_runner.py` and `crew/agents.py`).

Python strings are modelled as `List Char`; Python `str.strip()` /
`str.lower()` are modelled over ASCII (`pyStrip`, `pyLower`).  Python
floats are modelled as rationals (`ℚ`); `round(x, 2)` is modelled by
round-half-to-even on the rational value (`round2`).  Fallible code is
modelled with `Option` / `Except`, and the concurrency of the fan-out
stage is modelled by passing each sub-task's observed outcome
(completed with a value / raised / not reported before the outer
deadline) explicitly, so that the merge and error-propagation logic of
the orchestrator is an ordinary function of those outcomes.
-/

namespace Crew

/-- Python strings, modelled as lists of characters. -/
abbrev Str := List Char

/-- ASCII whitespace as recognised by Python's `str.strip()`. -/
def pyIsSpace (c : Char) : Bool :=
  c = ' ' || c = '\t' || c = '\n' || c = '\r' || c = '\x0b' || c = '\x0c'

/-- Python `str.strip()`: drop trailing whitespace, then leading whitespace. -/
def pyStrip (s : Str) : Str :=
  ((s.reverse.dropWhile pyIsSpace).reverse).dropWhile pyIsSpace

/-- Python `str.lower()` restricted to ASCII letters. -/
def pyLower (s : Str) : Str := s.map Char.toLower

/-- Python `str.split("to")`: split on every occurrence of the two-character
separator `"to"`, leftmost-first, as in `dates_str.split("to")`. -/
def splitOnTo : Str → List Str
  | [] => [[]]
  | 't' :: 'o' :: rest => [] :: splitOnTo rest
  | c :: rest =>
    match splitOnTo rest with
    | [] => [[c]]
    | h :: t => (c :: h) :: t

/-- Numeric value of a digit string (most significant first). -/
def digitsVal (l : Str) : ℕ := l.foldl (fun a c => a * 10 + (c.toNat - 48)) 0

/-- Gregorian leap year, as in Python's `datetime`. -/
def isLeap (y : ℕ) : Bool := (y % 4 = 0 && y % 100 ≠ 0) || y % 400 = 0

/-- Length of a month in the proleptic Gregorian calendar. -/
def daysInMonth (y m : ℕ) : ℕ :=
  if m = 2 then (if isLeap y then 29 else 28)
  else if m = 4 ∨ m = 6 ∨ m = 9 ∨ m = 11 then 30 else 31

/-- Days in year `y` strictly before month `m`. -/
def daysBeforeMonth (y m : ℕ) : ℕ :=
  (List.range (m - 1)).foldl (fun a i => a + daysInMonth y (i + 1)) 0

/-- Proleptic Gregorian ordinal of a date, as in Python's
`datetime.toordinal` (day 1 is 0001-01-01).  Subtracting two ordinals
gives the `timedelta.days` between the two midnights. -/
def toOrdinal (y m d : ℕ) : ℤ :=
  ((365 * (y - 1) + (y - 1) / 4 + (y - 1) / 400 + daysBeforeMonth y m + d : ℕ) : ℤ)
    - (((y - 1) / 100 : ℕ) : ℤ)

/-- `datetime.fromisoformat` restricted to the `YYYY-MM-DD` date form it
accepts in the source's usage: four digit year, two digit month and day,
all ranges validated. -/
def parseIsoDate (s : Str) : Option (ℕ × ℕ × ℕ) :=
  match s.splitOn '-' with
  | [ys, ms, ds] =>
    if ys.length = 4 ∧ ms.length = 2 ∧ ds.length = 2
        ∧ ys.all Char.isDigit ∧ ms.all Char.isDigit ∧ ds.all Char.isDigit then
      let y := digitsVal ys
      let m := digitsVal ms
      let d := digitsVal ds
      if 1 ≤ y ∧ y ≤ 9999 ∧ 1 ≤ m ∧ m ≤ 12 ∧ 1 ≤ d ∧ d ≤ daysInMonth y m then
        some (y, m, d)
      else none
    else none
  | _ => none

/-- Exponent part of a float literal: empty, or `e`/`E` with optional sign
and at least one digit. -/
def parseExp (s : Str) : Option ℤ :=
  match s with
  | [] => some 0
  | e :: rest =>
    if e = 'e' ∨ e = 'E' then
      let (sgn, ds) : ℤ × Str :=
        match rest with
        | '+' :: r => (1, r)
        | '-' :: r => (-1, r)
        | r => (1, r)
      if ds ≠ [] ∧ ds.all Char.isDigit then some (sgn * (digitsVal ds : ℤ))
      else none
    else none

/-- Python `float(s)` on finite decimal literals, with the value kept as a
rational: optional surrounding whitespace, optional sign, digits with an
optional decimal point (one side may be empty, not both), optional
exponent.  (`inf`/`nan`/underscores are outside the model; none of the
source's decisive inputs use them.) -/
def pyFloat (s0 : Str) : Option ℚ :=
  let s := pyStrip s0
  let (sgn, s1) : ℚ × Str :=
    match s with
    | '+' :: r => (1, r)
    | '-' :: r => (-1, r)
    | r => (1, r)
  let ip := s1.takeWhile Char.isDigit
  let r1 := s1.dropWhile Char.isDigit
  let (fp, r2) : Str × Str :=
    match r1 with
    | '.' :: r => (r.takeWhile Char.isDigit, r.dropWhile Char.isDigit)
    | r => ([], r)
  if ip = [] ∧ fp = [] then none
  else
    match parseExp r2 with
    | none => none
    | some e =>
      some (sgn * ((digitsVal ip : ℚ) + (digitsVal fp : ℚ) / (10 : ℚ) ^ fp.length)
        * (10 : ℚ) ^ e)

/-- Round-half-to-even to an integer, as Python's builtin `round`. -/
def roundHalfEven (q : ℚ) : ℤ :=
  let n := ⌊q⌋
  let frac := q - (n : ℚ)
  if frac < 1 / 2 then n
  else if 1 / 2 < frac then n + 1
  else if n % 2 = 0 then n else n + 1

/-- Python `round(x, 2)` on the rational value. -/
def round2 (q : ℚ) : ℚ := ((roundHalfEven (q * 100) : ℚ)) / 100

/-- The per-day budget allocation, `{"hotel_pct": .., "food_pct": ..,
"travel_pct": .., "misc_pct": ..}` of `BudgetAgent.run`. -/
structure Breakdown where
  hotel_pct : ℚ
  food_pct : ℚ
  travel_pct : ℚ
  misc_pct : ℚ
deriving DecidableEq, Repr

/-- The dictionary returned by `BudgetAgent.run`. -/
structure BudgetInfo where
  total_budget : ℚ
  days : ℕ
  per_day : ℚ
  breakdown : Breakdown
deriving DecidableEq, Repr

/-- The day-count computation of `BudgetAgent.run`: split the dates string
on `"to"`; when that yields exactly two parseable ISO dates whose inclusive
difference is positive, use it; in every other case (including a parse
error) keep the default of 5. -/
def daysOf (dates_str : Str) : ℕ :=
  match splitOnTo dates_str with
  | [p1, p2] =>
    match parseIsoDate (pyStrip p1), parseIsoDate (pyStrip p2) with
    | some (y1, m1, d1), some (y2, m2, d2) =>
      if 0 < toOrdinal y2 m2 d2 - toOrdinal y1 m1 d1 + 1
      then (toOrdinal y2 m2 d2 - toOrdinal y1 m1 d1 + 1).toNat else 5
    | _, _ => 5
  | _ => 5

/-- The error message raised by `BudgetAgent.run` on an unparseable budget. -/
def budgetErrMsg : Str := ("Budget must be a number").toList

/-- `BudgetAgent.run(budget_str, dates_str)`: parse the budget as a float
(raising `ValueError` when that fails), compute the day count with its
default, and derive the per-day figure and the rounded breakdown. -/
def budgetAgentRun (budget_str dates_str : Str) : Except Str BudgetInfo :=
  match pyFloat budget_str with
  | none => .error budgetErrMsg
  | some budget =>
    let days := daysOf dates_str
    let per_day := round2 (budget / (max days 1 : ℕ))
    .ok { total_budget := budget
          days := days
          per_day := per_day
          breakdown :=
            { hotel_pct := round2 (per_day * (4 / 10))
              food_pct := round2 (per_day * (3 / 10))
              travel_pct := round2 (per_day * (2 / 10))
              misc_pct := round2 (per_day * (1 / 10)) } }

instance {ε α : Type} [DecidableEq ε] [DecidableEq α] : DecidableEq (Except ε α) := fun a b =>
  match a, b with
  | .error x, .error y =>
    if h : x = y then .isTrue (by rw [h]) else
      .isFalse (by intro hc; injection hc; exact h (by assumption))
  | .ok x, .ok y =>
    if h : x = y then .isTrue (by rw [h]) else
      .isFalse (by intro hc; injection hc; exact h (by assumption))
  | .error _, .ok _ => .isFalse (by intro hc; exact Except.noConfusion hc)
  | .ok _, .error _ => .isFalse (by intro hc; exact Except.noConfusion hc)

/-- `_cache_key(destination, dates, budget, mood)`:
`f"{destination.strip().lower()}|{dates.strip()}|{budget}|{mood.strip().lower()}"`. -/
def cacheKey (destination dates budget mood : Str) : Str :=
  pyLower (pyStrip destination) ++ ['|'] ++ pyStrip dates ++ ['|'] ++ budget
    ++ ['|'] ++ pyLower (pyStrip mood)

/-- The composite plan dictionary assembled by `run_travel_crew`.  The
entries of the five result collections are opaque to the orchestrator and
modelled as strings. -/
structure CompositeResult where
  destination : Str
  dates : Str
  mood : Str
  budget_info : BudgetInfo
  trends : List Str
  photos : List Str
  itinerary : List Str
  hotels : List Str
  foods : List Str
deriving DecidableEq, Repr

/-- One record of the cache file: `{"_ts": int(time.time()), "value": ...}`. -/
structure CacheEntry where
  ts : ℤ
  value : CompositeResult
deriving DecidableEq, Repr

/-- The cache file's key→entry mapping, as an association list (Python
dicts preserve insertion order; assignment replaces in place). -/
abbrev Cache := List (Str × CacheEntry)

/-- Dictionary lookup `cache.get(key)`. -/
def cacheLookup (c : Cache) (k : Str) : Option CacheEntry :=
  (c.find? (fun e => e.1 == k)).map (fun e => e.2)

/-- `_get_cached(key)`: absent when the key is missing, and also when
`time.time() - entry["_ts"] > CACHE_TTL`; a stale entry is only treated
as absent, never deleted (the function does not modify the store).
`now` is the current `time.time()` and `ttl` the configured `CACHE_TTL`. -/
def getCached (ttl : ℤ) (now : ℚ) (c : Cache) (k : Str) : Option CompositeResult :=
  match cacheLookup c k with
  | none => none
  | some e => if (ttl : ℚ) < now - (e.ts : ℚ) then none else some e.value

/-- Python `int()` on a nonnegative-or-negative real: truncation toward 0. -/
def pyInt (q : ℚ) : ℤ := if 0 ≤ q then ⌊q⌋ else -⌊-q⌋

/-- `_set_cached(key, value)`: `cache[key] = {"_ts": int(time.time()),
"value": value}` — replace the binding in place when the key exists,
append it otherwise. -/
def setCached (ts : ℤ) (c : Cache) (k : Str) (v : CompositeResult) : Cache :=
  if (c.find? (fun e => e.1 == k)).isSome then
    c.map (fun e => if e.1 == k then (k, ⟨ts, v⟩) else e)
  else c ++ [(k, ⟨ts, v⟩)]

/-- The observed outcome of one submitted sub-task, abstracting over real
time: it completed with a value, raised an exception, or had not yet
reported when the enclosing deadline elapsed. -/
inductive TaskRes (α : Type)
  | ok (v : α)
  | exn (msg : Str)
  | unreported
deriving DecidableEq, Repr

/-- The behaviour of the five external-service-backed sub-tasks during one
orchestrator run, as functions of the arguments the orchestrator passes
them (`trend`, `itinerary`, `hotels`, `foods` are the agents' `run`
methods, `gallery` is `unsplash_search`). -/
structure Env where
  trend : Str → TaskRes (List Str)
  itinerary : Str → Str → BudgetInfo → List Str → TaskRes (List Str)
  hotels : Str → BudgetInfo → TaskRes (List Str)
  foods : Str → Str → BudgetInfo → TaskRes (List Str)
  gallery : Str → TaskRes (List Str)

/-- A log entry for each external call `run_travel_crew` performs, with
the arguments that identify it. -/
inductive Call
  | cacheGet (key : Str)
  | budget (b d : Str)
  | trendTask (dest : Str)
  | itineraryTask (dest mood : Str)
  | hotelsTask (dest : Str)
  | foodsTask (dest mood : Str)
  | galleryTask (dest : Str)
  | cachePut (key : Str)
deriving DecidableEq, Repr

/-- Whether a logged call invokes a member of the Sub-Task Set (budget,
trends, itinerary, hotels, foods, gallery), as opposed to a Cache Store
access. -/
def Call.isSubTask : Call → Bool
  | .cacheGet _ => false
  | .cachePut _ => false
  | _ => true

/-- The exceptions `run_travel_crew` can raise: `ValueError` (validation,
budget parsing) and `concurrent.futures.TimeoutError` from
`as_completed(..., timeout=40)`. -/
inductive PyError
  | valueError (msg : Str)
  | futuresTimeout
deriving DecidableEq, Repr

/-- Result of one `run_travel_crew` call: its return-or-raise outcome, the
cache contents afterwards, and the log of external calls made. -/
structure RunResult where
  out : Except PyError CompositeResult
  cache : Cache
  calls : List Call
deriving DecidableEq, Repr

/-- The request dictionary; `user_input.get(k)` yields `none` for a
missing key. -/
structure Input where
  destination : Option Str
  dates : Option Str
  budget : Option Str
  mood : Option Str
deriving DecidableEq, Repr

/-- `(user_input.get(k) or "")`: both a missing key and an empty string
give the empty string. -/
def orEmptyStr (o : Option Str) : Str := o.getD []

/-- `(user_input.get("mood") or "relax")`: a missing key and the (falsy)
empty string give the default; any other string is kept as is. -/
def orElseDefault (o : Option Str) (d : Str) : Str :=
  match o with
  | none => d
  | some [] => d
  | some s => s

/-- The `ValueError` message of the request validation. -/
def validationErrMsg : Str := ("destination and budget are required").toList

/-- Field merge of the fan-out loop: a reported value is kept (`res or []`
maps a falsy empty list to `[]`, which on lists is the identity), and any
exception is absorbed as `[]` by the `except Exception` handler. -/
def fanField : TaskRes (List Str) → List Str
  | .ok v => v
  | .exn _ => []
  | .unreported => []

/-- `run_travel_crew(user_input)`, with real time abstracted to the
observed sub-task outcomes in `env`:

* validation, cache-key derivation and the cache fast path follow the
  source line by line;
* `BudgetAgent.run` is called unguarded, so its `ValueError` propagates;
* the trend task runs under `_run_with_timeout(…, timeout=20)`: a timeout
  or exception leaves `trends = []` and the run continues;
* the four fan-out tasks are submitted to the pool; the `for fut in
  as_completed(future_to_name, timeout=40)` loop absorbs an exception of
  any completed task (`except Exception: res = []`), but if some future
  has not reported when the 40s deadline elapses, `as_completed` raises
  `TimeoutError`, which no handler catches — the model returns
  `futuresTimeout` for that case (a worker that literally never finishes
  would instead block the pool shutdown forever; that divergence is
  outside the model);
* on success the result is cached with `_set_cached` and returned. -/
def runTravelCrew (ttl : ℤ) (now : ℚ) (env : Env) (cache : Cache) (inp : Input) :
    RunResult :=
  let destination := pyStrip (orEmptyStr inp.destination)
  let dates := pyStrip (orEmptyStr inp.dates)
  let budget := pyStrip (orEmptyStr inp.budget)
  let mood := pyStrip (orElseDefault inp.mood (("relax").toList))
  if destination = [] ∨ budget = [] then
    { out := .error (.valueError validationErrMsg), cache := cache, calls := [] }
  else
    let key := cacheKey destination dates budget mood
    match getCached ttl now cache key with
    | some v =>
      -- `json.loads(json.dumps(cached))` is the identity on the value
      { out := .ok v, cache := cache, calls := [.cacheGet key] }
    | none =>
      match budgetAgentRun budget dates with
      | .error m =>
        { out := .error (.valueError m), cache := cache,
          calls := [.cacheGet key, .budget budget dates] }
      | .ok budget_info =>
        let trends :=
          match env.trend destination with
          | .ok v => v
          | _ => []
        let itR := env.itinerary destination mood budget_info trends
        let hoR := env.hotels destination budget_info
        let foR := env.foods destination mood budget_info
        let gaR := env.gallery destination
        let calls0 : List Call :=
          [.cacheGet key, .budget budget dates, .trendTask destination,
           .itineraryTask destination mood, .hotelsTask destination,
           .foodsTask destination mood, .galleryTask destination]
        if itR = .unreported ∨ hoR = .unreported ∨ foR = .unreported
            ∨ gaR = .unreported then
          { out := .error .futuresTimeout, cache := cache, calls := calls0 }
        else
          let result : CompositeResult :=
            { destination := destination, dates := dates, mood := mood,
              budget_info := budget_info, trends := trends,
              photos := fanField gaR, itinerary := fanField itR,
              hotels := fanField hoR, foods := fanField foR }
          { out := .ok result, cache := setCached (pyInt now) cache key result,
            calls := calls0 ++ [.cachePut key] }

/-- One trial of a worker executing a submitted function, with `t` the
wall-clock moment (seconds after submission) at which the worker finishes. -/
inductive WorkerRun (α : Type)
  | completes (t : ℕ) (v : α)
  | raises (t : ℕ) (msg : Str)
  | hangs
deriving DecidableEq, Repr

/-- The `(ok, result_or_exception)` pair `_run_with_timeout` returns:
`(True, value)`, or `(False, TimeoutError(f"Timeout after {timeout}s
…"))`, or `(False, e)` for an exception `e` raised by the task. -/
inductive Outcome (α : Type)
  | success (v : α)
  | failureTimeout (secs : ℕ)
  | failureError (msg : Str)
deriving DecidableEq, Repr

/-- `_run_with_timeout(fn, *args, timeout)`.  `task n` is the behaviour
the worker would exhibit on the `n`-th trial of `fn`; the code submits
`fn` exactly once, so only `task 0` is consulted.  The result pairs the
`Outcome` with the moment the caller regains control: `fut.result(timeout)`
returns (or raises `TimeoutError`) by `timeout`, but leaving the `with
ThreadPoolExecutor` block calls `shutdown(wait=True)`, which joins the
worker — so control returns only when the worker finishes, and a worker
that never finishes means the call never returns (`none`). -/
def runWithTimeout {α : Type} (timeout : ℕ) (task : ℕ → WorkerRun α) :
    Option (Outcome α × ℕ) :=
  match task 0 with
  | .completes t v =>
    if t ≤ timeout then some (.success v, t)
    else some (.failureTimeout timeout, t)
  | .raises t m =>
    if t ≤ timeout then some (.failureError m, t)
    else some (.failureTimeout timeout, t)
  | .hangs => none

/-- The head of a `dropWhile p` result never satisfies `p`. -/
theorem dropWhile_head_false (p : Char → Bool) :
    ∀ (l : Str) (x : Char) (xs : Str), l.dropWhile p = x :: xs → p x = false := by
  intro l
  induction l with
  | nil => intro x xs h; simp [List.dropWhile] at h
  | cons a t ih =>
    intro x xs h
    rw [List.dropWhile_cons] at h
    by_cases hp : p a
    · simp [hp] at h
      exact ih x xs h
    · simp [hp] at h
      rcases h with ⟨h1, _⟩
      rw [← h1]
      exact eq_false_of_ne_true hp

/-- `dropWhile` is idempotent. -/
theorem dropWhile_idem (p : Char → Bool) (l : Str) :
    (l.dropWhile p).dropWhile p = l.dropWhile p := by
  cases h : l.dropWhile p with
  | nil => simp
  | cons x xs =>
    have hx := dropWhile_head_false p l x xs h
    rw [List.dropWhile_cons, hx]
    simp

/-- If `dropWhile` leaves a nonempty list, the last element is unchanged. -/
theorem getLast?_dropWhile (p : Char → Bool) :
    ∀ (l : Str), l.dropWhile p ≠ [] → (l.dropWhile p).getLast? = l.getLast? := by
  intro l
  induction l with
  | nil => intro h; simp [List.dropWhile] at h
  | cons a t ih =>
    intro h
    rw [List.dropWhile_cons] at h ⊢
    by_cases hp : p a
    · rw [if_pos hp] at h ⊢
      cases t with
      | nil => simp [List.dropWhile] at h
      | cons b u =>
        rw [List.getLast?_cons_cons]
        exact ih h
    · rw [if_neg hp]

/-- A list whose last element is not a space is fixed by right-stripping. -/
theorem rstrip_eq_self (l : Str)
    (h : ∀ x, l.getLast? = some x → pyIsSpace x = false) :
    (l.reverse.dropWhile pyIsSpace).reverse = l := by
  cases hr : l.reverse with
  | nil =>
    have : l = [] := by
      have := congrArg List.reverse hr
      simpa using this
    simp [this]
  | cons y ys =>
    have hy : l.getLast? = some y := by
      rw [← List.head?_reverse, hr]; rfl
    have hys : pyIsSpace y = false := h y hy
    have hl : l = (y :: ys).reverse := by
      have := congrArg List.reverse hr
      simpa using this
    have hn : ¬ (pyIsSpace y = true) := by rw [hys]; exact Bool.false_ne_true
    rw [List.dropWhile_cons, if_neg hn]
    exact hl.symm

/-- The last element of a right-stripped list is never a space. -/
theorem rstrip_getLast_false (l : Str) (x : Char)
    (h : ((l.reverse.dropWhile pyIsSpace).reverse).getLast? = some x) :
    pyIsSpace x = false := by
  rw [List.getLast?_reverse] at h
  cases hd : l.reverse.dropWhile pyIsSpace with
  | nil => rw [hd] at h; simp at h
  | cons z zs =>
    rw [hd] at h
    simp at h
    rw [← h]
    exact dropWhile_head_false pyIsSpace l.reverse z zs hd


/-- Python `strip` is idempotent. -/
theorem pyStrip_idem (s : Str) : pyStrip (pyStrip s) = pyStrip s := by
  unfold pyStrip
  set R := (s.reverse.dropWhile pyIsSpace).reverse with hR
  set S := R.dropWhile pyIsSpace with hS
  have hfix : (S.reverse.dropWhile pyIsSpace).reverse = S := by
    apply rstrip_eq_self
    intro x hx
    have hne : S ≠ [] := by
      intro he; rw [he] at hx; simp at hx
    have h1 : S.getLast? = R.getLast? := by
      rw [hS]; exact getLast?_dropWhile pyIsSpace R (by rw [← hS]; exact hne)
    rw [h1] at hx
    exact rstrip_getLast_false s x (by rw [← hR]; exact hx)
  rw [hfix, hS, dropWhile_idem]

/-- The day count computed by `BudgetAgent.run` is always at least 1:
every fallback is 5, and a computed inclusive difference is only used
when positive. -/
theorem daysOf_pos (d : Str) : 1 ≤ daysOf d := by
  unfold daysOf
  split
  · split
    · split
      · rename_i hd
        omega
      · decide
    · decide
  · decide

/-- `BudgetAgent.run` raises `ValueError("Budget must be a number")`
exactly when `float(budget_str)` fails. -/
theorem budgetAgentRun_err (b d : Str) (h : pyFloat b = none) :
    budgetAgentRun b d = .error budgetErrMsg := by
  unfold budgetAgentRun
  rw [h]

/-- A benign sub-task environment in which every task reports an empty
collection; used to instantiate concrete runs. -/
def idleEnv : Env :=
  { trend := fun _ => .ok []
    itinerary := fun _ _ _ _ => .ok []
    hotels := fun _ _ => .ok []
    foods := fun _ _ _ => .ok []
    gallery := fun _ => .ok [] }

/-- A sub-task environment whose five outcomes are fixed in advance,
ignoring the arguments: used to quantify over one run's observed
sub-task outcomes. -/
def constEnv (tR iR hR fR gR : TaskRes (List Str)) : Env :=
  { trend := fun _ => tR
    itinerary := fun _ _ _ _ => iR
    hotels := fun _ _ => hR
    foods := fun _ _ _ => fR
    gallery := fun _ => gR }

/-- C4.  The cache key is a deterministic function of the request (it is
a plain function of the four fields), and two requests whose destination
and mood agree up to trimming and case and whose dates and budget agree
up to trimming produce the same key.  The arguments are the raw request
fields; each is stripped by `run_travel_crew` before `_cache_key` is
applied, exactly as in the source. -/
theorem cacheKey_trim_case_invariant
    (d1 t1 b1 m1 d2 t2 b2 m2 : Str)
    (hd : pyLower (pyStrip d1) = pyLower (pyStrip d2))
    (ht : pyStrip t1 = pyStrip t2)
    (hb : pyStrip b1 = pyStrip b2)
    (hm : pyLower (pyStrip m1) = pyLower (pyStrip m2)) :
    cacheKey (pyStrip d1) (pyStrip t1) (pyStrip b1) (pyStrip m1)
      = cacheKey (pyStrip d2) (pyStrip t2) (pyStrip b2) (pyStrip m2) := by
  simp only [cacheKey, pyStrip_idem, hd, ht, hb, hm]

/-- Witness for C4 at concrete requests differing in whitespace and case. -/
theorem cacheKey_trim_case_invariant_witness :
    cacheKey (pyStrip (("  Jaipur, India ").toList)) (pyStrip ((" 2025-12-10 to 2025-12-15").toList))
        (pyStrip (("50000 ").toList)) (pyStrip (("Adventure").toList))
      = cacheKey (pyStrip (("JAIPUR, india").toList)) (pyStrip (("2025-12-10 to 2025-12-15 ").toList))
        (pyStrip (("50000").toList)) (pyStrip ((" adventure").toList)) :=
  cacheKey_trim_case_invariant _ _ _ _ _ _ _ _ (by decide) (by decide) (by decide) (by decide)

/-- C5.  A stored entry whose age exceeds the TTL is treated as absent by
`_get_cached`, while the record itself remains in storage (the read does
not modify the store, so the same lookup still finds the entry). -/
theorem getCached_stale_none (ttl : ℤ) (now : ℚ) (c : Cache) (k : Str) (e : CacheEntry)
    (hfound : cacheLookup c k = some e)
    (hstale : (ttl : ℚ) < now - (e.ts : ℚ)) :
    getCached ttl now c k = none ∧ cacheLookup c k = some e := by
  constructor
  · unfold getCached
    rw [hfound]
    show (if (ttl : ℚ) < now - (e.ts : ℚ) then (none : Option CompositeResult)
      else some e.value) = none
    rw [if_pos hstale]
  · exact hfound

/-- Witness for C5: an entry written at `ts = 0` read at `now = 3601`
with the default TTL of 3600 seconds. -/
theorem getCached_stale_none_witness :
    getCached 3600 3601
        [((("k").toList),
          { ts := 0,
            value :=
              { destination := [], dates := [], mood := [],
                budget_info :=
                  { total_budget := 0, days := 5, per_day := 0,
                    breakdown := { hotel_pct := 0, food_pct := 0,
                                   travel_pct := 0, misc_pct := 0 } },
                trends := [], photos := [], itinerary := [],
                hotels := [], foods := [] } })]
        (("k").toList) = none := by
  have h := getCached_stale_none 3600 3601
    [((("k").toList),
      { ts := 0,
        value :=
          { destination := [], dates := [], mood := [],
            budget_info :=
              { total_budget := 0, days := 5, per_day := 0,
                breakdown := { hotel_pct := 0, food_pct := 0,
                               travel_pct := 0, misc_pct := 0 } },
            trends := [], photos := [], itinerary := [],
            hotels := [], foods := [] } })]
    (("k").toList) _ rfl (by norm_num)
  exact h.1

/-- C9.  A request whose destination or budget is missing, empty, or
whitespace-only makes `run_travel_crew` raise
`ValueError("destination and budget are required")` at once: the cache is
not read or written, no sub-task is invoked, and the store is unchanged. -/
theorem runTravelCrew_invalid_request
    (ttl : ℤ) (now : ℚ) (env : Env) (cache : Cache) (inp : Input)
    (h : pyStrip (orEmptyStr inp.destination) = [] ∨ pyStrip (orEmptyStr inp.budget) = []) :
    runTravelCrew ttl now env cache inp =
      { out := .error (.valueError validationErrMsg), cache := cache, calls := [] } := by
  simp only [runTravelCrew]
  rw [if_pos h]

/-- Witness for C9: an empty destination is rejected with no calls made. -/
theorem runTravelCrew_invalid_request_witness :
    runTravelCrew 3600 1000 idleEnv []
        { destination := some [], dates := none,
          budget := some (("50000").toList), mood := none } =
      { out := .error (.valueError validationErrMsg), cache := [], calls := [] } :=
  runTravelCrew_invalid_request 3600 1000 idleEnv []
    { destination := some [], dates := none,
      budget := some (("50000").toList), mood := none }
    (Or.inl (by decide))

/-- C6.  `BudgetAgent.run` is a pure function of the request: whenever it
returns, `days` is the inclusive day count of the date range (with the
default when unparseable) and is at least 1, `per_day` is
`round(total_budget / days, 2)`, and the breakdown is the 0.4/0.3/0.2/0.1
fractions of `per_day`, each rounded to 2 decimals.  On the concrete
request `budget = "50000"`, `dates = "2025-12-10 to 2025-12-15"` it
yields `days = 6`, `per_day = 8333.33`, `hotel = 3333.33`, and the four
breakdown values sum exactly to `per_day`. -/
theorem budgetAgentRun_spec :
    (∀ (b d : Str) (i : BudgetInfo), budgetAgentRun b d = .ok i →
      i.days = daysOf d ∧ 1 ≤ i.days ∧
      i.per_day = round2 (i.total_budget / (i.days : ℚ)) ∧
      i.breakdown.hotel_pct = round2 (i.per_day * (4 / 10)) ∧
      i.breakdown.food_pct = round2 (i.per_day * (3 / 10)) ∧
      i.breakdown.travel_pct = round2 (i.per_day * (2 / 10)) ∧
      i.breakdown.misc_pct = round2 (i.per_day * (1 / 10)))
    ∧ budgetAgentRun (("50000").toList) (("2025-12-10 to 2025-12-15").toList) =
        .ok { total_budget := 50000, days := 6, per_day := 8333.33,
              breakdown := { hotel_pct := 3333.33, food_pct := 2500,
                             travel_pct := 1666.67, misc_pct := 833.33 } }
    ∧ (3333.33 + 2500 + 1666.67 + 833.33 : ℚ) = 8333.33 := by
  refine ⟨?_, ?_, by norm_num⟩
  · intro b d i h
    unfold budgetAgentRun at h
    cases hp : pyFloat b with
    | none => rw [hp] at h; exact absurd h (by simp)
    | some q =>
      rw [hp] at h
      simp only [Except.ok.injEq] at h
      have hmax : max (daysOf d) 1 = daysOf d := Nat.max_eq_left (daysOf_pos d)
      rw [← h]
      refine ⟨rfl, daysOf_pos d, ?_, rfl, rfl, rfl, rfl⟩
      simp only [hmax]
  · have hf : pyFloat (("50000").toList) = some 50000 := by
      simp +decide [pyFloat, pyStrip, pyIsSpace, parseExp, digitsVal]
    have hd : daysOf (("2025-12-10 to 2025-12-15").toList) = 6 := by decide
    simp only [budgetAgentRun, hf, hd]
    norm_num [round2, roundHalfEven]

/-- Witness for C6: the universally quantified part applied to the
concrete scenario request. -/
theorem budgetAgentRun_spec_witness :
    ∃ i : BudgetInfo,
      budgetAgentRun (("50000").toList) (("2025-12-10 to 2025-12-15").toList) = .ok i ∧
      i.days = daysOf (("2025-12-10 to 2025-12-15").toList) ∧ 1 ≤ i.days ∧
      i.per_day = round2 (i.total_budget / (i.days : ℚ)) := by
  obtain ⟨hgen, hconc, _⟩ := budgetAgentRun_spec
  refine ⟨_, hconc, ?_⟩
  have h := hgen _ _ _ hconc
  exact ⟨h.1, h.2.1, h.2.2.1⟩

/-- C1 counterexample.  A request whose budget is the non-empty,
non-numeric string `"abc"` passes validation but makes `run_travel_crew`
raise `ValueError("Budget must be a number")` from `BudgetAgent.run`:
the budget parse error is not recovered and no composite result is
produced. -/
theorem run_budget_abc_raises :
    pyStrip (("abc").toList) ≠ [] ∧
    pyFloat (("abc").toList) = none ∧
    runTravelCrew 3600 1000 idleEnv []
        { destination := some (("Jaipur, India").toList),
          dates := some (("2025-12-10 to 2025-12-15").toList),
          budget := some (("abc").toList),
          mood := some (("adventure").toList) } =
      { out := .error (.valueError budgetErrMsg),
        cache := [],
        calls := [.cacheGet (cacheKey (("jaipur, india").toList)
                    (("2025-12-10 to 2025-12-15").toList)
                    (("abc").toList) (("adventure").toList)),
                  .budget (("abc").toList) (("2025-12-10 to 2025-12-15").toList)] } := by
  refine ⟨by decide, by decide, ?_⟩
  decide

/-- C1 amended.  For every request that passes validation, misses the
cache, and whose stripped budget string does not parse as a float,
`run_travel_crew` raises `ValueError("Budget must be a number")` (it
does not recover, produce a composite result, or touch the store); the
5-day default applies only to unparseable dates. -/
theorem runTravelCrew_budget_parse_raises
    (ttl : ℤ) (now : ℚ) (env : Env) (cache : Cache) (inp : Input)
    (hdest : pyStrip (orEmptyStr inp.destination) ≠ [])
    (hbud : pyStrip (orEmptyStr inp.budget) ≠ [])
    (hpar : pyFloat (pyStrip (orEmptyStr inp.budget)) = none)
    (hmiss : getCached ttl now cache
      (cacheKey (pyStrip (orEmptyStr inp.destination)) (pyStrip (orEmptyStr inp.dates))
        (pyStrip (orEmptyStr inp.budget))
        (pyStrip (orElseDefault inp.mood (("relax").toList)))) = none) :
    runTravelCrew ttl now env cache inp =
      { out := .error (.valueError budgetErrMsg),
        cache := cache,
        calls := [.cacheGet (cacheKey (pyStrip (orEmptyStr inp.destination))
                    (pyStrip (orEmptyStr inp.dates)) (pyStrip (orEmptyStr inp.budget))
                    (pyStrip (orElseDefault inp.mood (("relax").toList)))),
                  .budget (pyStrip (orEmptyStr inp.budget))
                    (pyStrip (orEmptyStr inp.dates))] } := by
  have herr := budgetAgentRun_err (pyStrip (orEmptyStr inp.budget))
    (pyStrip (orEmptyStr inp.dates)) hpar
  simp only [runTravelCrew]
  rw [if_neg (not_or.mpr ⟨hdest, hbud⟩), hmiss, herr]

/-- Witness for C1's amended statement at `budget = "xyz"`. -/
theorem runTravelCrew_budget_parse_raises_witness :
    runTravelCrew 3600 0 idleEnv []
        { destination := some (("Paris").toList), dates := some [],
          budget := some (("xyz").toList), mood := none } =
      { out := .error (.valueError budgetErrMsg),
        cache := [],
        calls := [.cacheGet (cacheKey (pyStrip (orEmptyStr (some (("Paris").toList))))
                    (pyStrip (orEmptyStr (some ([] : Str))))
                    (pyStrip (orEmptyStr (some (("xyz").toList))))
                    (pyStrip (orElseDefault (none : Option Str) (("relax").toList)))),
                  .budget (pyStrip (orEmptyStr (some (("xyz").toList))))
                    (pyStrip (orEmptyStr (some ([] : Str))))] } :=
  runTravelCrew_budget_parse_raises 3600 0 idleEnv []
    { destination := some (("Paris").toList), dates := some [],
      budget := some (("xyz").toList), mood := none }
    (by decide) (by decide) (by decide) rfl

/-- C2 counterexample.  A run in which the itinerary task has not
reported when the 40-second outer deadline elapses, while trends,
hotels, foods and gallery all reported values: `run_travel_crew` raises
the `TimeoutError` of `as_completed` instead of returning a composite
result with an empty itinerary. -/
theorem run_outer_deadline_raises :
    (runTravelCrew 3600 1000
        (constEnv (.ok [("spot").toList]) .unreported (.ok [("hotel").toList])
          (.ok [("food").toList]) (.ok [("url").toList]))
        []
        { destination := some (("Jaipur").toList), dates := some [],
          budget := some (("50000").toList), mood := some (("adventure").toList) }).out
      = .error .futuresTimeout := by
  decide

/-- C2 amended.  If the outer fan-out deadline elapses before all four
tasks report, `run_travel_crew` does not merge the reported results: the
uncaught `TimeoutError` raised by `as_completed(..., timeout=40)`
propagates to the caller, no `CompositeResult` is returned, and nothing
is written to the cache. -/
theorem runTravelCrew_outer_deadline_propagates
    (ttl : ℤ) (now : ℚ) (cache : Cache) (inp : Input)
    (tR iR hR fR gR : TaskRes (List Str)) (bi : BudgetInfo)
    (hdest : pyStrip (orEmptyStr inp.destination) ≠ [])
    (hbud : pyStrip (orEmptyStr inp.budget) ≠ [])
    (hmiss : getCached ttl now cache
      (cacheKey (pyStrip (orEmptyStr inp.destination)) (pyStrip (orEmptyStr inp.dates))
        (pyStrip (orEmptyStr inp.budget))
        (pyStrip (orElseDefault inp.mood (("relax").toList)))) = none)
    (hbi : budgetAgentRun (pyStrip (orEmptyStr inp.budget))
      (pyStrip (orEmptyStr inp.dates)) = .ok bi)
    (hun : iR = .unreported ∨ hR = .unreported ∨ fR = .unreported ∨ gR = .unreported) :
    (runTravelCrew ttl now (constEnv tR iR hR fR gR) cache inp).out
        = .error .futuresTimeout
      ∧ (runTravelCrew ttl now (constEnv tR iR hR fR gR) cache inp).cache = cache := by
  simp only [runTravelCrew, constEnv]
  rw [if_neg (not_or.mpr ⟨hdest, hbud⟩), hmiss, hbi]
  dsimp only
  rw [if_pos hun]
  exact ⟨rfl, rfl⟩

/-- Witness for C2's amended statement: gallery unreported, all
hypotheses discharged at a concrete request. -/
theorem runTravelCrew_outer_deadline_propagates_witness :
    (runTravelCrew 3600 0
        (constEnv (.ok []) (.ok []) (.ok []) (.ok []) .unreported) []
        { destination := some (("Rome").toList), dates := some [],
          budget := some (("200").toList), mood := none }).out
        = .error .futuresTimeout
      ∧ (runTravelCrew 3600 0
          (constEnv (.ok []) (.ok []) (.ok []) (.ok []) .unreported) []
          { destination := some (("Rome").toList), dates := some [],
            budget := some (("200").toList), mood := none }).cache = [] :=
  runTravelCrew_outer_deadline_propagates 3600 0 []
    { destination := some (("Rome").toList), dates := some [],
      budget := some (("200").toList), mood := none }
    (.ok []) (.ok []) (.ok []) (.ok []) .unreported _
    (by decide) (by decide) rfl rfl
    (Or.inr (Or.inr (Or.inr rfl)))

/-- C3 counterexample.  A run in which exactly one of the four fan-out
tasks (hotels) fails by timing out — it has not reported when the outer
deadline elapses — while the other three reported non-empty results:
`run_travel_crew` raises `TimeoutError`, so the other three fields are
not delivered at all, and a sub-task failure does propagate as an error
after validation has passed. -/
theorem run_single_timeout_not_isolated :
    (runTravelCrew 3600 1000
        (constEnv (.ok [("spot").toList]) (.ok [("day1").toList]) .unreported
          (.ok [("food").toList]) (.ok [("url").toList]))
        []
        { destination := some (("Kyoto").toList), dates := some [],
          budget := some (("900").toList), mood := some (("relax").toList) }).out
      = .error .futuresTimeout ∧
    ∀ r, (runTravelCrew 3600 1000
        (constEnv (.ok [("spot").toList]) (.ok [("day1").toList]) .unreported
          (.ok [("food").toList]) (.ok [("url").toList]))
        []
        { destination := some (("Kyoto").toList), dates := some [],
          budget := some (("900").toList), mood := some (("relax").toList) }).out
      ≠ .ok r := by
  refine ⟨by decide, ?_⟩
  intro r h
  rw [show (runTravelCrew 3600 1000
      (constEnv (.ok [("spot").toList]) (.ok [("day1").toList]) .unreported
        (.ok [("food").toList]) (.ok [("url").toList]))
      []
      { destination := some (("Kyoto").toList), dates := some [],
        budget := some (("900").toList), mood := some (("relax").toList) }).out
    = .error .futuresTimeout from by decide] at h
  exact Except.noConfusion h

/-- C3 amended.  When every fan-out task reports by the outer deadline,
the merge is pointwise and failure-isolating: each field of the returned
`CompositeResult` is its own task's reported value, a task that raised
an exception contributes the empty sequence without affecting the other
three fields or failing the run, and a trend-task failure only empties
`trends`.  (A task that does not report by the outer deadline instead
makes the run raise `TimeoutError` — see the counterexample.) -/
theorem runTravelCrew_fanout_merge
    (ttl : ℤ) (now : ℚ) (cache : Cache) (inp : Input)
    (tR iR hR fR gR : TaskRes (List Str)) (bi : BudgetInfo)
    (hdest : pyStrip (orEmptyStr inp.destination) ≠ [])
    (hbud : pyStrip (orEmptyStr inp.budget) ≠ [])
    (hmiss : getCached ttl now cache
      (cacheKey (pyStrip (orEmptyStr inp.destination)) (pyStrip (orEmptyStr inp.dates))
        (pyStrip (orEmptyStr inp.budget))
        (pyStrip (orElseDefault inp.mood (("relax").toList)))) = none)
    (hbi : budgetAgentRun (pyStrip (orEmptyStr inp.budget))
      (pyStrip (orEmptyStr inp.dates)) = .ok bi)
    (hi : iR ≠ .unreported) (hh : hR ≠ .unreported)
    (hf : fR ≠ .unreported) (hg : gR ≠ .unreported) :
    (runTravelCrew ttl now (constEnv tR iR hR fR gR) cache inp).out =
      .ok { destination := pyStrip (orEmptyStr inp.destination),
            dates := pyStrip (orEmptyStr inp.dates),
            mood := pyStrip (orElseDefault inp.mood (("relax").toList)),
            budget_info := bi,
            trends := fanField tR,
            photos := fanField gR,
            itinerary := fanField iR,
            hotels := fanField hR,
            foods := fanField fR } := by
  simp only [runTravelCrew, constEnv]
  rw [if_neg (not_or.mpr ⟨hdest, hbud⟩), hmiss, hbi]
  dsimp only
  rw [if_neg (by push_neg; exact ⟨hi, hh, hf, hg⟩)]
  cases tR with
  | ok v => rfl
  | exn m => rfl
  | unreported => rfl

/-- Witness for C3's amended statement: foods raises, the other three
succeed with non-empty results; the returned composite keeps the three
successful fields and has empty foods. -/
theorem runTravelCrew_fanout_merge_witness :
    (runTravelCrew 3600 0
        (constEnv (.ok [("spot").toList]) (.ok [("day1").toList])
          (.ok [("hotel").toList]) (.exn (("boom").toList)) (.ok [("url").toList]))
        []
        { destination := some (("Lima").toList), dates := some [],
          budget := some (("100").toList), mood := none }).out =
      .ok { destination := ("Lima").toList,
            dates := [],
            mood := ("relax").toList,
            budget_info :=
              { total_budget := 100, days := 5, per_day := 20,
                breakdown := { hotel_pct := 8, food_pct := 6,
                               travel_pct := 4, misc_pct := 2 } },
            trends := [("spot").toList],
            photos := [("url").toList],
            itinerary := [("day1").toList],
            hotels := [("hotel").toList],
            foods := [] } := by
  have hbi : budgetAgentRun (pyStrip (orEmptyStr (some (("100").toList))))
      (pyStrip (orEmptyStr (some ([] : Str)))) =
      .ok { total_budget := 100, days := 5, per_day := 20,
            breakdown := { hotel_pct := 8, food_pct := 6,
                           travel_pct := 4, misc_pct := 2 } } := by
    have hf : pyFloat (("100").toList) = some 100 := by
      simp +decide [pyFloat, pyStrip, pyIsSpace, parseExp, digitsVal]
    have hd : daysOf ([] : Str) = 5 := by decide
    show budgetAgentRun (("100").toList) ([] : Str) = _
    simp only [budgetAgentRun, hf, hd]
    norm_num [round2, roundHalfEven]
  have h := runTravelCrew_fanout_merge 3600 0 []
    { destination := some (("Lima").toList), dates := some [],
      budget := some (("100").toList), mood := none }
    (.ok [("spot").toList]) (.ok [("day1").toList]) (.ok [("hotel").toList])
    (.exn (("boom").toList)) (.ok [("url").toList])
    { total_budget := 100, days := 5, per_day := 20,
      breakdown := { hotel_pct := 8, food_pct := 6, travel_pct := 4, misc_pct := 2 } }
    (by decide) (by decide) rfl hbi
    (by intro hc; exact TaskRes.noConfusion hc)
    (by intro hc; exact TaskRes.noConfusion hc)
    (by intro hc; exact TaskRes.noConfusion hc)
    (by intro hc; exact TaskRes.noConfusion hc)
  exact h

/-- Replacing the binding of `k` in place leaves it findable as the
replaced pair. -/
theorem find?_map_replace (k : Str) (e : CacheEntry) :
    ∀ c : Cache, (c.find? (fun x => x.1 == k)).isSome = true →
      (c.map (fun x => if x.1 == k then (k, e) else x)).find? (fun x => x.1 == k)
        = some (k, e) := by
  intro c
  induction c with
  | nil => intro h; simp [List.find?] at h
  | cons x xs ih =>
    intro h
    by_cases hx : (x.1 == k) = true
    · rw [List.map_cons, show (if x.1 == k then (k, e) else x) = (k, e) from if_pos hx]
      exact List.find?_cons_of_pos _ (beq_self_eq_true k)
    · rw [List.map_cons, show (if x.1 == k then (k, e) else x) = x from if_neg hx]
      have hstep : List.find? (fun y => y.1 == k)
          (x :: xs.map (fun y => if y.1 == k then (k, e) else y))
          = List.find? (fun y => y.1 == k)
            (xs.map (fun y => if y.1 == k then (k, e) else y)) :=
        List.find?_cons_of_neg _ hx
      rw [hstep]
      have hred : List.find? (fun y => y.1 == k) (x :: xs)
          = List.find? (fun y => y.1 == k) xs :=
        List.find?_cons_of_neg _ hx
      rw [hred] at h
      exact ih h

/-- After `_set_cached(key, value)` the store maps `key` to the freshly
written entry, whether the key was present before or not. -/
theorem cacheLookup_setCached (ts : ℤ) (c : Cache) (k : Str) (v : CompositeResult) :
    cacheLookup (setCached ts c k v) k = some ⟨ts, v⟩ := by
  unfold setCached cacheLookup
  by_cases h : (c.find? (fun e => e.1 == k)).isSome = true
  · rw [if_pos h, find?_map_replace k ⟨ts, v⟩ c h]
    rfl
  · rw [if_neg h, List.find?_append]
    have hnone : c.find? (fun e => e.1 == k) = none := by
      cases hf : c.find? (fun e => e.1 == k) with
      | none => rfl
      | some x => rw [hf] at h; simp at h
    have hf : List.find? (fun e => e.1 == k) [(k, (⟨ts, v⟩ : CacheEntry))]
        = some (k, (⟨ts, v⟩ : CacheEntry)) :=
      List.find?_cons_of_pos _ (beq_self_eq_true k)
    rw [hnone, hf]
    rfl

/-- A freshly written entry is returned by `_get_cached` as long as its
age does not exceed the TTL. -/
theorem getCached_setCached (ttl : ℤ) (now : ℚ) (ts : ℤ) (c : Cache) (k : Str)
    (v : CompositeResult) (hfresh : ¬ ((ttl : ℚ) < now - (ts : ℚ))) :
    getCached ttl now (setCached ts c k v) k = some v := by
  unfold getCached
  rw [cacheLookup_setCached]
  show (if (ttl : ℚ) < now - ((ts : ℤ) : ℚ) then (none : Option CompositeResult)
    else some v) = some v
  rw [if_neg hfresh]

/-- A run that passed validation, missed the cache, and returned `r`
successfully wrote exactly `r` to the store under the request's key. -/
theorem runTravelCrew_ok_cache
    (ttl : ℤ) (now : ℚ) (env : Env) (cache : Cache) (inp : Input) (r : CompositeResult)
    (hdest : pyStrip (orEmptyStr inp.destination) ≠ [])
    (hbud : pyStrip (orEmptyStr inp.budget) ≠ [])
    (hmiss : getCached ttl now cache
      (cacheKey (pyStrip (orEmptyStr inp.destination)) (pyStrip (orEmptyStr inp.dates))
        (pyStrip (orEmptyStr inp.budget))
        (pyStrip (orElseDefault inp.mood (("relax").toList)))) = none)
    (hok : (runTravelCrew ttl now env cache inp).out = .ok r) :
    (runTravelCrew ttl now env cache inp).cache =
      setCached (pyInt now) cache
        (cacheKey (pyStrip (orEmptyStr inp.destination)) (pyStrip (orEmptyStr inp.dates))
          (pyStrip (orEmptyStr inp.budget))
          (pyStrip (orElseDefault inp.mood (("relax").toList)))) r := by
  simp only [runTravelCrew] at hok ⊢
  rw [if_neg (not_or.mpr ⟨hdest, hbud⟩), hmiss] at hok ⊢
  cases hb : budgetAgentRun (pyStrip (orEmptyStr inp.budget))
      (pyStrip (orEmptyStr inp.dates)) with
  | error m =>
    rw [hb] at hok
    simp at hok
  | ok bi =>
    rw [hb] at hok
    dsimp only at hok ⊢
    split at hok
    · simp at hok
    · rename_i hcond
      rw [if_neg hcond]
      dsimp only at hok ⊢
      rw [Except.ok.injEq] at hok
      rw [hok]

/-- C7.  First part: when the store holds a fresh entry `v` for the
request's key, `run_travel_crew` returns `v` (the JSON round-trip copy is
the identity on the value), leaves the store unchanged, and its only
external call is the cache read — no sub-task runs.  Second part: a
validated request that misses the cache and completes with result `r`,
re-issued against the resulting store while the written entry is still
fresh, is answered from the cache with the same `r`, again with no
sub-task call. -/
theorem runTravelCrew_cache_hit :
    (∀ (ttl : ℤ) (now : ℚ) (env : Env) (cache : Cache) (inp : Input) (v : CompositeResult),
      pyStrip (orEmptyStr inp.destination) ≠ [] →
      pyStrip (orEmptyStr inp.budget) ≠ [] →
      getCached ttl now cache
        (cacheKey (pyStrip (orEmptyStr inp.destination)) (pyStrip (orEmptyStr inp.dates))
          (pyStrip (orEmptyStr inp.budget))
          (pyStrip (orElseDefault inp.mood (("relax").toList)))) = some v →
      runTravelCrew ttl now env cache inp =
        { out := .ok v, cache := cache,
          calls := [.cacheGet (cacheKey (pyStrip (orEmptyStr inp.destination))
            (pyStrip (orEmptyStr inp.dates)) (pyStrip (orEmptyStr inp.budget))
            (pyStrip (orElseDefault inp.mood (("relax").toList))))] } ∧
      ∀ cl ∈ (runTravelCrew ttl now env cache inp).calls, cl.isSubTask = false)
    ∧
    (∀ (ttl : ℤ) (now1 now2 : ℚ) (env env2 : Env) (cache : Cache) (inp : Input)
        (r : CompositeResult),
      pyStrip (orEmptyStr inp.destination) ≠ [] →
      pyStrip (orEmptyStr inp.budget) ≠ [] →
      getCached ttl now1 cache
        (cacheKey (pyStrip (orEmptyStr inp.destination)) (pyStrip (orEmptyStr inp.dates))
          (pyStrip (orEmptyStr inp.budget))
          (pyStrip (orElseDefault inp.mood (("relax").toList)))) = none →
      (runTravelCrew ttl now1 env cache inp).out = .ok r →
      ¬ ((ttl : ℚ) < now2 - ((pyInt now1 : ℤ) : ℚ)) →
      (runTravelCrew ttl now2 env2 (runTravelCrew ttl now1 env cache inp).cache inp).out
          = .ok r ∧
      ∀ cl ∈ (runTravelCrew ttl now2 env2
          (runTravelCrew ttl now1 env cache inp).cache inp).calls,
        cl.isSubTask = false) := by
  have hit : ∀ (ttl : ℤ) (now : ℚ) (env : Env) (cache : Cache) (inp : Input)
      (v : CompositeResult),
      pyStrip (orEmptyStr inp.destination) ≠ [] →
      pyStrip (orEmptyStr inp.budget) ≠ [] →
      getCached ttl now cache
        (cacheKey (pyStrip (orEmptyStr inp.destination)) (pyStrip (orEmptyStr inp.dates))
          (pyStrip (orEmptyStr inp.budget))
          (pyStrip (orElseDefault inp.mood (("relax").toList)))) = some v →
      runTravelCrew ttl now env cache inp =
        { out := .ok v, cache := cache,
          calls := [.cacheGet (cacheKey (pyStrip (orEmptyStr inp.destination))
            (pyStrip (orEmptyStr inp.dates)) (pyStrip (orEmptyStr inp.budget))
            (pyStrip (orElseDefault inp.mood (("relax").toList))))] } := by
    intro ttl now env cache inp v hdest hbud hhit
    simp only [runTravelCrew]
    rw [if_neg (not_or.mpr ⟨hdest, hbud⟩), hhit]
  constructor
  · intro ttl now env cache inp v hdest hbud hhit
    refine ⟨hit ttl now env cache inp v hdest hbud hhit, ?_⟩
    rw [hit ttl now env cache inp v hdest hbud hhit]
    intro cl hcl
    simp only [List.mem_singleton] at hcl
    rw [hcl]
    rfl
  · intro ttl now1 now2 env env2 cache inp r hdest hbud hmiss hok hfresh
    have hc := runTravelCrew_ok_cache ttl now1 env cache inp r hdest hbud hmiss hok
    have hhit2 : getCached ttl now2 (runTravelCrew ttl now1 env cache inp).cache
        (cacheKey (pyStrip (orEmptyStr inp.destination)) (pyStrip (orEmptyStr inp.dates))
          (pyStrip (orEmptyStr inp.budget))
          (pyStrip (orElseDefault inp.mood (("relax").toList)))) = some r := by
      rw [hc]
      exact getCached_setCached ttl now2 (pyInt now1) cache _ r hfresh
    have h2 := hit ttl now2 env2 (runTravelCrew ttl now1 env cache inp).cache inp r
      hdest hbud hhit2
    refine ⟨by rw [h2], ?_⟩
    rw [h2]
    intro cl hcl
    simp only [List.mem_singleton] at hcl
    rw [hcl]
    rfl

/-- Witness for C7: a store already holding a fresh entry answers the
request from the cache with no sub-task call, and a miss-then-hit pair
of identical requests is answered from the cache on the second call. -/
theorem runTravelCrew_cache_hit_witness :
    runTravelCrew 3600 10 idleEnv
        [((cacheKey (("goa").toList) [] (("7").toList) (("relax").toList)),
          { ts := 5,
            value :=
              { destination := ("Goa").toList, dates := [], mood := ("relax").toList,
                budget_info :=
                  { total_budget := 7, days := 5, per_day := 1.4,
                    breakdown := { hotel_pct := 0.56, food_pct := 0.42,
                                   travel_pct := 0.28, misc_pct := 0.14 } },
                trends := [], photos := [], itinerary := [], hotels := [], foods := [] } })]
        { destination := some (("Goa").toList), dates := some [],
          budget := some (("7").toList), mood := none } =
      { out := .ok
          { destination := ("Goa").toList, dates := [], mood := ("relax").toList,
            budget_info :=
              { total_budget := 7, days := 5, per_day := 1.4,
                breakdown := { hotel_pct := 0.56, food_pct := 0.42,
                               travel_pct := 0.28, misc_pct := 0.14 } },
            trends := [], photos := [], itinerary := [], hotels := [], foods := [] },
        cache :=
          [((cacheKey (("goa").toList) [] (("7").toList) (("relax").toList)),
            { ts := 5,
              value :=
                { destination := ("Goa").toList, dates := [], mood := ("relax").toList,
                  budget_info :=
                    { total_budget := 7, days := 5, per_day := 1.4,
                      breakdown := { hotel_pct := 0.56, food_pct := 0.42,
                                     travel_pct := 0.28, misc_pct := 0.14 } },
                  trends := [], photos := [], itinerary := [], hotels := [], foods := [] } })],
        calls := [.cacheGet (cacheKey (("goa").toList) [] (("7").toList) (("relax").toList))] } := by
  have h := (runTravelCrew_cache_hit.1) 3600 10 idleEnv
    [((cacheKey (("goa").toList) [] (("7").toList) (("relax").toList)),
      { ts := 5,
        value :=
          { destination := ("Goa").toList, dates := [], mood := ("relax").toList,
            budget_info :=
              { total_budget := 7, days := 5, per_day := 1.4,
                breakdown := { hotel_pct := 0.56, food_pct := 0.42,
                               travel_pct := 0.28, misc_pct := 0.14 } },
            trends := [], photos := [], itinerary := [], hotels := [], foods := [] } })]
    { destination := some (("Goa").toList), dates := some [],
      budget := some (("7").toList), mood := none }
    { destination := ("Goa").toList, dates := [], mood := ("relax").toList,
      budget_info :=
        { total_budget := 7, days := 5, per_day := 1.4,
          breakdown := { hotel_pct := 0.56, food_pct := 0.42,
                         travel_pct := 0.28, misc_pct := 0.14 } },
      trends := [], photos := [], itinerary := [], hotels := [], foods := [] }
    (by decide) (by decide) ?_
  · exact h.1
  · show getCached 3600 10 _ _ = _
    unfold getCached cacheLookup
    rw [show (cacheKey (pyStrip (orEmptyStr (some (("Goa").toList))))
        (pyStrip (orEmptyStr (some ([] : Str))))
        (pyStrip (orEmptyStr (some (("7").toList))))
        (pyStrip (orElseDefault (none : Option Str) (("relax").toList))))
      = cacheKey (("goa").toList) [] (("7").toList) (("relax").toList) from by decide]
    have hf : List.find?
        (fun e => e.1 == cacheKey (("goa").toList) [] (("7").toList) (("relax").toList))
        ([((cacheKey (("goa").toList) [] (("7").toList) (("relax").toList)),
          { ts := 5,
            value :=
              { destination := ("Goa").toList, dates := [], mood := ("relax").toList,
                budget_info :=
                  { total_budget := 7, days := 5, per_day := 1.4,
                    breakdown := { hotel_pct := 0.56, food_pct := 0.42,
                                   travel_pct := 0.28, misc_pct := 0.14 } },
                trends := [], photos := [], itinerary := [], hotels := [], foods := [] } })] : Cache)
        = some (((cacheKey (("goa").toList) [] (("7").toList) (("relax").toList)),
          { ts := 5,
            value :=
              { destination := ("Goa").toList, dates := [], mood := ("relax").toList,
                budget_info :=
                  { total_budget := 7, days := 5, per_day := 1.4,
                    breakdown := { hotel_pct := 0.56, food_pct := 0.42,
                                   travel_pct := 0.28, misc_pct := 0.14 } },
                trends := [], photos := [], itinerary := [], hotels := [], foods := [] } }) : Str × CacheEntry) :=
      List.find?_cons_of_pos _ (beq_self_eq_true _)
    rw [hf]
    norm_num

/-- C8 counterexample.  `_run_with_timeout` with an 18s timeout over a
task whose worker finishes at t = 100 does return `Failure(Timeout)`,
but the caller regains control only at t = 100 (executor shutdown joins
the worker), not immediately at the 18s timeout; and over a worker that
never finishes the call never returns an outcome at all. -/
theorem runWithTimeout_not_immediate :
    runWithTimeout 18 (fun _ => WorkerRun.completes 100 [("img").toList])
        = some (.failureTimeout 18, 100)
      ∧ (100 : ℕ) ≠ 18
      ∧ runWithTimeout 18 (fun _ => (WorkerRun.hangs : WorkerRun (List Str))) = none := by
  exact ⟨by decide, by decide, rfl⟩

/-- C8 amended.  `_run_with_timeout` consults only the first trial of the
task (it never retries), and whenever the worker eventually finishes it
returns exactly one `Outcome`: `Success(value)` for completion within the
timeout, `Failure(TaskError(detail))` with the underlying message for an
exception within the timeout, and `Failure(Timeout)` otherwise — but the
caller regains control only when the worker finishes, and a worker that
never finishes means no outcome is ever returned. -/
theorem runWithTimeout_spec {α : Type} (timeout : ℕ) (task : ℕ → WorkerRun α) :
    (∀ task2 : ℕ → WorkerRun α, task 0 = task2 0 →
      runWithTimeout timeout task = runWithTimeout timeout task2) ∧
    (∀ t v, task 0 = .completes t v → t ≤ timeout →
      runWithTimeout timeout task = some (.success v, t)) ∧
    (∀ t v, task 0 = .completes t v → timeout < t →
      runWithTimeout timeout task = some (.failureTimeout timeout, t)) ∧
    (∀ t m, task 0 = .raises t m → t ≤ timeout →
      runWithTimeout timeout task = some (.failureError m, t)) ∧
    (∀ t m, task 0 = .raises t m → timeout < t →
      runWithTimeout timeout task = some (.failureTimeout timeout, t)) ∧
    (task 0 = .hangs → runWithTimeout timeout task = none) := by
  refine ⟨?_, ?_, ?_, ?_, ?_, ?_⟩
  · intro task2 h
    unfold runWithTimeout
    rw [h]
  · intro t v h ht
    unfold runWithTimeout
    rw [h]
    dsimp only
    rw [if_pos ht]
  · intro t v h ht
    unfold runWithTimeout
    rw [h]
    dsimp only
    rw [if_neg (Nat.not_le_of_lt ht)]
  · intro t m h ht
    unfold runWithTimeout
    rw [h]
    dsimp only
    rw [if_pos ht]
  · intro t m h ht
    unfold runWithTimeout
    rw [h]
    dsimp only
    rw [if_neg (Nat.not_le_of_lt ht)]
  · intro h
    unfold runWithTimeout
    rw [h]

/-- Witness for C8's amended statement: a task completing at t = 5 under
an 18s timeout yields `Success` at t = 5. -/
theorem runWithTimeout_spec_witness :
    runWithTimeout 18 (fun _ => WorkerRun.completes 5 [("a").toList])
      = some (.success [("a").toList], 5) :=
  (runWithTimeout_spec 18 (fun _ => WorkerRun.completes 5 [("a").toList])).2.1
    5 [("a").toList] rfl (by decide)

/-- C10.  A request with a missing or empty mood passes validation (only
destination and budget are checked); the mood silently defaults to
`"relax"`, which is used in the cache key and passed to the itinerary
and foods sub-tasks. -/
theorem runTravelCrew_mood_default
    (ttl : ℤ) (now : ℚ) (cache : Cache) (inp : Input)
    (tR iR hR fR gR : TaskRes (List Str)) (bi : BudgetInfo)
    (hmood : inp.mood = none ∨ inp.mood = some [])
    (hdest : pyStrip (orEmptyStr inp.destination) ≠ [])
    (hbud : pyStrip (orEmptyStr inp.budget) ≠ [])
    (hmiss : getCached ttl now cache
      (cacheKey (pyStrip (orEmptyStr inp.destination)) (pyStrip (orEmptyStr inp.dates))
        (pyStrip (orEmptyStr inp.budget)) (("relax").toList)) = none)
    (hbi : budgetAgentRun (pyStrip (orEmptyStr inp.budget))
      (pyStrip (orEmptyStr inp.dates)) = .ok bi) :
    (runTravelCrew ttl now (constEnv tR iR hR fR gR) cache inp).out
        ≠ .error (.valueError validationErrMsg)
      ∧ (runTravelCrew ttl now (constEnv tR iR hR fR gR) cache inp).calls.head?
        = some (.cacheGet (cacheKey (pyStrip (orEmptyStr inp.destination))
            (pyStrip (orEmptyStr inp.dates)) (pyStrip (orEmptyStr inp.budget))
            (("relax").toList)))
      ∧ Call.itineraryTask (pyStrip (orEmptyStr inp.destination)) (("relax").toList)
          ∈ (runTravelCrew ttl now (constEnv tR iR hR fR gR) cache inp).calls
      ∧ Call.foodsTask (pyStrip (orEmptyStr inp.destination)) (("relax").toList)
          ∈ (runTravelCrew ttl now (constEnv tR iR hR fR gR) cache inp).calls := by
  have hm : pyStrip (orElseDefault inp.mood (("relax").toList)) = ("relax").toList := by
    rcases hmood with h | h <;> rw [h] <;> decide
  simp only [runTravelCrew, constEnv, hm]
  rw [if_neg (not_or.mpr ⟨hdest, hbud⟩), hmiss, hbi]
  dsimp only
  by_cases hun : iR = TaskRes.unreported ∨ hR = TaskRes.unreported
      ∨ fR = TaskRes.unreported ∨ gR = TaskRes.unreported
  · rw [if_pos hun]
    refine ⟨by simp, rfl, by simp, by simp⟩
  · rw [if_neg hun]
    refine ⟨by simp, rfl, by simp, by simp⟩

/-- Witness for C10: a request with no mood key at all is processed with
mood `"relax"` in the key and in the itinerary and foods calls. -/
theorem runTravelCrew_mood_default_witness :
    (runTravelCrew 3600 0 (constEnv (.ok []) (.ok []) (.ok []) (.ok []) (.ok [])) []
        { destination := some (("Agra").toList), dates := some [],
          budget := some (("60").toList), mood := none }).out
        ≠ .error (.valueError validationErrMsg)
      ∧ (runTravelCrew 3600 0 (constEnv (.ok []) (.ok []) (.ok []) (.ok []) (.ok [])) []
          { destination := some (("Agra").toList), dates := some [],
            budget := some (("60").toList), mood := none }).calls.head?
        = some (.cacheGet (cacheKey (pyStrip (orEmptyStr (some (("Agra").toList))))
            (pyStrip (orEmptyStr (some ([] : Str))))
            (pyStrip (orEmptyStr (some (("60").toList)))) (("relax").toList)))
      ∧ Call.itineraryTask (pyStrip (orEmptyStr (some (("Agra").toList)))) (("relax").toList)
          ∈ (runTravelCrew 3600 0 (constEnv (.ok []) (.ok []) (.ok []) (.ok []) (.ok [])) []
              { destination := some (("Agra").toList), dates := some [],
                budget := some (("60").toList), mood := none }).calls
      ∧ Call.foodsTask (pyStrip (orEmptyStr (some (("Agra").toList)))) (("relax").toList)
          ∈ (runTravelCrew 3600 0 (constEnv (.ok []) (.ok []) (.ok []) (.ok []) (.ok [])) []
              { destination := some (("Agra").toList), dates := some [],
                budget := some (("60").toList), mood := none }).calls := by
  exact runTravelCrew_mood_default 3600 0 []
    { destination := some (("Agra").toList), dates := some [],
      budget := some (("60").toList), mood := none }
    (.ok []) (.ok []) (.ok []) (.ok []) (.ok []) _
    (Or.inl rfl) (by decide) (by decide) rfl rfl

end Crew
